import Mathlib

/-
Verification development for the IDP deployment pipeline
(src/deployment/pipeline.py).  The pipeline is shallowly embedded: every
external effect (shell command, HTTP call, clock, environment variable,
file system) is supplied by a World oracle, and each pipeline function
returns its result together with the list of observable events it performs.
-/

set_option maxHeartbeats 1000000

namespace Pipeline

/-- YAML-like documents as produced by yaml.safe_load: scalars, arrays, and
string-keyed maps with insertion order (Python dict semantics). -/
inductive Yaml where
  | scalar (s : String)
  | arr (items : List Yaml)
  | map (entries : List (String × Yaml))

/-- Python dict lookup d.get(k) on an insertion-ordered association list
(first matching key wins; well-formed dicts have unique keys). -/
def getKey? (m : List (String × Yaml)) (k : String) : Option Yaml :=
  match m with
  | [] => none
  | (k1, v) :: rest => if k1 = k then some v else getKey? rest k

/-- Python dict assignment d[k] = v: updates the first matching key in
place, otherwise appends the new key at the end (insertion order kept). -/
def setKey (m : List (String × Yaml)) (k : String) (v : Yaml) :
    List (String × Yaml) :=
  match m with
  | [] => [(k, v)]
  | (k1, v1) :: rest => if k1 = k then (k1, v) :: rest else (k1, v1) :: setKey rest k v

@[simp] theorem getKey?_setKey_self (m : List (String × Yaml)) (k : String) (v : Yaml) :
    getKey? (setKey m k v) k = some v := by
  induction m with
  | nil => simp [getKey?, setKey]
  | cons hd tl ih =>
    obtain ⟨k1, v1⟩ := hd
    by_cases h : k1 = k <;> simp [getKey?, setKey, h, ih]

theorem getKey?_setKey_ne (m : List (String × Yaml)) (k1 k2 : String) (v : Yaml)
    (h : k1 ≠ k2) : getKey? (setKey m k1 v) k2 = getKey? m k2 := by
  induction m with
  | nil => simp [getKey?, setKey, h]
  | cons hd tl ih =>
    obtain ⟨ka, va⟩ := hd
    by_cases h1 : ka = k1
    · subst h1
      simp [getKey?, setKey, h]
    · by_cases h2 : ka = k2 <;> simp [getKey?, setKey, h1, h2, ih, Ne.symm h]

theorem setKey_setKey_self (m : List (String × Yaml)) (k : String) (v1 v2 : Yaml) :
    setKey (setKey m k v1) k v2 = setKey m k v2 := by
  induction m with
  | nil => simp [setKey]
  | cons hd tl ih =>
    obtain ⟨ka, va⟩ := hd
    by_cases h : ka = k <;> simp [setKey, h, ih]

theorem setKey_of_getKey?_eq (m : List (String × Yaml)) (k : String) (v : Yaml)
    (h : getKey? m k = some v) : setKey m k v = m := by
  induction m with
  | nil => simp [getKey?] at h
  | cons hd tl ih =>
    obtain ⟨ka, va⟩ := hd
    by_cases h1 : ka = k
    · subst h1
      simp [getKey?] at h
      simp [setKey, h]
    · simp [getKey?, h1] at h
      simp [setKey, h1, ih h]

/-- The pure manifest mutation performed by DeploymentPipeline.update_manifest
(pipeline.py lines 146-155): set values[image][tag] to the extracted tag,
then set values[deployment][lastUpdated] and values[deployment][updatedBy],
creating the deployment map if absent (values.get). Returns none exactly
when the Python code would raise (missing or non-map image field, or a
non-map deployment field). -/
def applyUpdate (tag ts actor : String) (values : List (String × Yaml)) :
    Option (List (String × Yaml)) :=
  match getKey? values "image" with
  | some (Yaml.map img) =>
    let v1 := setKey values "image" (Yaml.map (setKey img "tag" (Yaml.scalar tag)))
    match getKey? v1 "deployment" with
    | none =>
      some (setKey v1 "deployment"
        (Yaml.map (setKey (setKey [] "lastUpdated" (Yaml.scalar ts))
          "updatedBy" (Yaml.scalar actor))))
    | some (Yaml.map dep) =>
      some (setKey v1 "deployment"
        (Yaml.map (setKey (setKey dep "lastUpdated" (Yaml.scalar ts))
          "updatedBy" (Yaml.scalar actor))))
    | some _ => none
  | _ => none

/-- Structure of a successful manifest update: the image map gets its tag
field overwritten, a deployment map carrying lastUpdated/updatedBy is set,
and nothing else changes. -/
theorem applyUpdate_spec (tag ts actor : String) (doc d1 : List (String × Yaml))
    (h : applyUpdate tag ts actor doc = some d1) :
    ∃ img dep1,
      getKey? doc "image" = some (Yaml.map img) ∧
      d1 = setKey (setKey doc "image" (Yaml.map (setKey img "tag" (Yaml.scalar tag))))
        "deployment" (Yaml.map dep1) ∧
      getKey? d1 "image" = some (Yaml.map (setKey img "tag" (Yaml.scalar tag))) ∧
      getKey? d1 "deployment" = some (Yaml.map dep1) ∧
      getKey? dep1 "lastUpdated" = some (Yaml.scalar ts) ∧
      getKey? dep1 "updatedBy" = some (Yaml.scalar actor) ∧
      (∀ dep, getKey? doc "deployment" = some (Yaml.map dep) →
        ∀ k, k ≠ "lastUpdated" → k ≠ "updatedBy" → getKey? dep1 k = getKey? dep k) := by
  have hne1 : ("image" : String) ≠ "deployment" := by decide
  have hne2 : ("updatedBy" : String) ≠ "lastUpdated" := by decide
  simp only [applyUpdate] at h
  split at h
  case h_2 => exact absurd h (by simp)
  case h_1 _ img him =>
    rw [getKey?_setKey_ne _ _ _ _ hne1] at h
    split at h
    · case h_1 hdep =>
      refine ⟨img, setKey (setKey [] "lastUpdated" (Yaml.scalar ts))
        "updatedBy" (Yaml.scalar actor), him, ?_, ?_, ?_, ?_, ?_, ?_⟩
      · exact (Option.some_injective _ h).symm
      · rw [← (Option.some_injective _ h),
          getKey?_setKey_ne _ _ _ _ (Ne.symm hne1), getKey?_setKey_self]
      · rw [← (Option.some_injective _ h), getKey?_setKey_self]
      · rw [getKey?_setKey_ne _ _ _ _ hne2, getKey?_setKey_self]
      · rw [getKey?_setKey_self]
      · intro dep hdep2
        rw [hdep] at hdep2
        exact absurd hdep2 (by simp)
    · case h_2 dep hdep =>
      refine ⟨img, setKey (setKey dep "lastUpdated" (Yaml.scalar ts))
        "updatedBy" (Yaml.scalar actor), him, ?_, ?_, ?_, ?_, ?_, ?_⟩
      · exact (Option.some_injective _ h).symm
      · rw [← (Option.some_injective _ h),
          getKey?_setKey_ne _ _ _ _ (Ne.symm hne1), getKey?_setKey_self]
      · rw [← (Option.some_injective _ h), getKey?_setKey_self]
      · rw [getKey?_setKey_ne _ _ _ _ hne2, getKey?_setKey_self]
      · rw [getKey?_setKey_self]
      · intro dep2 hdep2 k hk1 hk2
        rw [hdep] at hdep2
        cases hdep2
        rw [getKey?_setKey_ne _ _ _ _ (Ne.symm hk2), getKey?_setKey_ne _ _ _ _ (Ne.symm hk1)]
    · case h_3 y hy hdep => exact absurd h (by simp)

/-- C7: Manifest update is idempotent on the tag field.  Applying the update
with the same image reference twice yields a document identical to the
once-updated one except for the deployment timestamp/updater metadata fields
(and exactly equal when the metadata values repeat), and each application
preserves every field other than image.tag and the deployment metadata:
top-level keys besides image and deployment, image subkeys besides tag, and
deployment subkeys besides lastUpdated/updatedBy are unchanged. -/
theorem manifest_update_idempotent
    (tag ts1 a1 ts2 a2 : String) (doc d1 : List (String × Yaml))
    (h : applyUpdate tag ts1 a1 doc = some d1) :
    (∃ dep1, getKey? d1 "deployment" = some (Yaml.map dep1) ∧
      applyUpdate tag ts2 a2 d1 =
        some (setKey d1 "deployment"
          (Yaml.map (setKey (setKey dep1 "lastUpdated" (Yaml.scalar ts2))
            "updatedBy" (Yaml.scalar a2))))) ∧
    applyUpdate tag ts1 a1 d1 = some d1 ∧
    (∀ k, k ≠ "image" → k ≠ "deployment" → getKey? d1 k = getKey? doc k) ∧
    (∀ img, getKey? doc "image" = some (Yaml.map img) →
      ∃ img1, getKey? d1 "image" = some (Yaml.map img1) ∧
        ∀ k, k ≠ "tag" → getKey? img1 k = getKey? img k) ∧
    (∀ dep, getKey? doc "deployment" = some (Yaml.map dep) →
      ∃ dep1, getKey? d1 "deployment" = some (Yaml.map dep1) ∧
        ∀ k, k ≠ "lastUpdated" → k ≠ "updatedBy" → getKey? dep1 k = getKey? dep k) := by
  obtain ⟨img, dep1, him, hd1, him1, hdep1, hlu, hub, hpres⟩ :=
    applyUpdate_spec tag ts1 a1 doc d1 h
  have hcol : setKey d1 "image"
      (Yaml.map (setKey (setKey img "tag" (Yaml.scalar tag)) "tag" (Yaml.scalar tag))) = d1 := by
    rw [setKey_setKey_self]
    exact setKey_of_getKey?_eq _ _ _ him1
  have happ : ∀ ts a, applyUpdate tag ts a d1 =
      some (setKey d1 "deployment"
        (Yaml.map (setKey (setKey dep1 "lastUpdated" (Yaml.scalar ts))
          "updatedBy" (Yaml.scalar a)))) := by
    intro ts a
    simp only [applyUpdate, him1]
    rw [hcol, hdep1]
  refine ⟨⟨dep1, hdep1, happ ts2 a2⟩, ?_, ?_, ?_, ?_⟩
  · rw [happ ts1 a1, setKey_of_getKey?_eq _ _ _ hlu, setKey_of_getKey?_eq _ _ _ hub,
      setKey_of_getKey?_eq _ _ _ hdep1]
  · intro k hk1 hk2
    rw [hd1, getKey?_setKey_ne _ _ _ _ (Ne.symm hk2), getKey?_setKey_ne _ _ _ _ (Ne.symm hk1)]
  · intro img2 him2
    rw [him] at him2
    cases him2
    exact ⟨setKey img "tag" (Yaml.scalar tag), him1,
      fun k hk => getKey?_setKey_ne _ _ _ _ (Ne.symm hk)⟩
  · intro dep hdep
    exact ⟨dep1, hdep1, hpres dep hdep⟩

/-- A small concrete environment manifest used by the witnesses. -/
def doc0 : List (String × Yaml) :=
  [("image", Yaml.map [("repository", Yaml.scalar "user-api"), ("tag", Yaml.scalar "old")]),
   ("replicas", Yaml.scalar "2")]

/-- The manifest doc0 after one update with tag abc12345 at time t1 by alice. -/
def doc1 : List (String × Yaml) :=
  [("image", Yaml.map [("repository", Yaml.scalar "user-api"), ("tag", Yaml.scalar "abc12345")]),
   ("replicas", Yaml.scalar "2"),
   ("deployment", Yaml.map [("lastUpdated", Yaml.scalar "t1"), ("updatedBy", Yaml.scalar "alice")])]

/-- Witness for C7 at a concrete manifest: the once-updated document doc1 is a
fixed point of a repeated update with the same tag and metadata. -/
theorem manifest_update_idempotent_witness :
    applyUpdate "abc12345" "t1" "alice" doc1 = some doc1 :=
  (manifest_update_idempotent "abc12345" "t1" "alice" "t2" "bob" doc0 doc1 rfl).2.1

/-- Python str.split(sep) without maxsplit, for a single-character separator,
on strings viewed as lists of characters: splitting the empty string gives
one empty part, and every separator occurrence starts a new part. -/
def pySplit (sep : Char) : List Char → List (List Char)
  | [] => [[]]
  | c :: cs =>
    if c = sep then [] :: pySplit sep cs
    else
      match pySplit sep cs with
      | [] => [[c]]
      | p :: ps => (c :: p) :: ps

/-- Tag extraction from pipeline.py line 147:
tag = image_tag.split(colon)[1] if colon in image_tag else the literal latest. -/
def tagOf (l : List Char) : List Char :=
  if ':' ∈ l then (pySplit ':' l).getD 1 [] else "latest".toList

/-- String-level wrapper of tagOf, as used by the ManifestUpdate stage. -/
def extractTag (s : String) : String := ⟨tagOf s.data⟩

theorem pySplit_eq (sep : Char) (l : List Char) :
    pySplit sep l = l.takeWhile (· ≠ sep) ::
      (if sep ∈ l then pySplit sep ((l.dropWhile (· ≠ sep)).tail) else []) := by
  induction l with
  | nil => simp [pySplit]
  | cons c cs ih =>
    by_cases h : c = sep
    · subst h
      simp [pySplit, List.takeWhile, List.dropWhile]
    · rw [pySplit, if_neg h, ih]
      simp [List.takeWhile, List.dropWhile, h, Ne.symm h]

/-- C10: for every image reference containing a colon, the tag written into
the manifest is the segment between the first and the second colon of the
reference (the second element of the split), not the substring after the
last colon; with no colon the literal latest is written.  In particular a
registry host carrying a port yields a written tag that is not the image
content tag. -/
theorem tag_between_first_two_colons :
    (∀ l : List Char, ':' ∈ l →
      tagOf l = ((l.dropWhile (· ≠ ':')).tail).takeWhile (· ≠ ':')) ∧
    (∀ l : List Char, ':' ∉ l → tagOf l = "latest".toList) ∧
    extractTag "registry.company.com:5000/user-api:abc12345" = "5000/user-api" ∧
    extractTag "registry.company.com:5000/user-api:abc12345" ≠ "abc12345" ∧
    extractTag "nginx" = "latest" := by
  refine ⟨?_, ?_, rfl, by decide, rfl⟩
  · intro l hl
    rw [tagOf, if_pos hl, pySplit_eq, if_pos hl, pySplit_eq]
    simp
  · intro l hl
    rw [tagOf, if_neg hl]

/-- Witness for C10 on a short concrete reference with two colons. -/
theorem tag_between_first_two_colons_witness :
    tagOf "a:b:c".toList = "b".toList :=
  (tag_between_first_two_colons.1 "a:b:c".toList (by decide)).trans (by decide)

/-- The retry loop of DeploymentPipeline._verify_health (pipeline.py
lines 238-253), over the list of responses the health endpoint would give to
the successive attempts (some status code, or none for a raised network
error, which the loop treats as a failed attempt).  Returns the outcome, the
number of attempts actually made, and the list of sleep durations performed
(the code sleeps 10 seconds after every non-final failed attempt). -/
def verifyLoop : List (Option Nat) → Bool × Nat × List Nat
  | [] => (false, 0, [])
  | r :: rest =>
    if r = some 200 then (true, 1, [])
    else
      match rest with
      | [] => (false, 1, [])
      | _ :: _ =>
        let t := verifyLoop rest
        (t.1, t.2.1 + 1, 10 :: t.2.2)

/-- The fixed retry bound max_retries = 5 of _verify_health. -/
def max_retries : Nat := 5

/-- DeploymentPipeline._verify_health: in dry-run mode it succeeds without
polling; otherwise it polls the health endpoint up to max_retries times. -/
def verify_health (dryRun : Bool) (resp : Nat → Option Nat) : Bool × Nat × List Nat :=
  if dryRun then (true, 0, [])
  else verifyLoop ((List.range max_retries).map resp)

theorem verifyLoop_fst (l : List (Option Nat)) :
    (verifyLoop l).1 = l.any (· = some 200) := by
  induction l with
  | nil => simp [verifyLoop]
  | cons r rest ih =>
    by_cases h : r = some 200
    · simp [verifyLoop, h]
    · cases rest with
      | nil => simp [verifyLoop, h]
      | cons r2 rest2 => simp [verifyLoop, h, ← ih]

theorem verifyLoop_all_fail (l : List (Option Nat)) (hne : l ≠ [])
    (h : ∀ r ∈ l, r ≠ some 200) :
    verifyLoop l = (false, l.length, List.replicate (l.length - 1) 10) := by
  induction l with
  | nil => exact absurd rfl hne
  | cons r rest ih =>
    have hr : r ≠ some 200 := h r (List.mem_cons_self r rest)
    cases rest with
    | nil => simp [verifyLoop, hr]
    | cons r2 rest2 =>
      rw [verifyLoop, if_neg hr]
      rw [ih (by simp) (fun x hx => h x (List.mem_cons_of_mem r hx))]
      simp [List.replicate_succ]

/-- C2: non-dry-run health verification succeeds if and only if at least one
of its 5 polling attempts receives a 200 response; if every attempt is
non-healthy (non-200 status or a network error, the latter a failed attempt
rather than a fatal error), the stage fails after exactly 5 attempts with 4
inter-attempt delays of 10 seconds between them. -/
theorem health_verification_retries (resp : Nat → Option Nat) :
    ((verify_health false resp).1 = true ↔ ∃ i < 5, resp i = some 200) ∧
    ((∀ i < 5, resp i ≠ some 200) →
      verify_health false resp = (false, 5, [10, 10, 10, 10])) := by
  have hrange : List.range max_retries = [0, 1, 2, 3, 4] := rfl
  constructor
  · rw [verify_health, if_neg (by simp), verifyLoop_fst, hrange]
    simp only [List.map_cons, List.map_nil, List.any_cons, List.any_nil,
      Bool.or_eq_true, Bool.or_false, decide_eq_true_eq]
    constructor
    · rintro (h | h | h | h | h)
      · exact ⟨0, by omega, h⟩
      · exact ⟨1, by omega, h⟩
      · exact ⟨2, by omega, h⟩
      · exact ⟨3, by omega, h⟩
      · exact ⟨4, by omega, h⟩
    · rintro ⟨i, hi, h⟩
      interval_cases i
      · exact Or.inl h
      · exact Or.inr (Or.inl h)
      · exact Or.inr (Or.inr (Or.inl h))
      · exact Or.inr (Or.inr (Or.inr (Or.inl h)))
      · exact Or.inr (Or.inr (Or.inr (Or.inr h)))
  · intro h
    rw [verify_health, if_neg (by simp)]
    rw [verifyLoop_all_fail _ (by rw [hrange]; simp)]
    · simp [hrange]
    · intro r hr
      rw [hrange] at hr
      simp only [List.map_cons, List.map_nil, List.mem_cons, List.not_mem_nil, or_false] at hr
      rcases hr with h1 | h1 | h1 | h1 | h1 <;>
        (subst h1; exact h _ (by omega))

/-- Witness for C2: an endpoint that raises a network error on every attempt
makes the stage fail after 5 attempts and 4 ten-second sleeps. -/
theorem health_verification_retries_witness :
    verify_health false (fun _ => none) = (false, 5, [10, 10, 10, 10]) :=
  (health_verification_retries (fun _ => none)).2 (fun i _ => by simp)

/-- Result of loading catalog-info.yaml: missing file or malformed YAML. -/
inductive ConfigError where
  | configNotFound
  | configParseError (msg : String)
  deriving DecidableEq, Repr

/-- Behavior of the Slack webhook delivery: requests.post either returns a
response (whose status the code ignores) or raises an exception. -/
inductive NotifyDelivery where
  | delivered (status : Nat)
  | raised (msg : String)
  deriving DecidableEq, Repr

/-- Notification configuration and behavior (SLACK_WEBHOOK_URL plus what the
webhook endpoint does), kept apart from the rest of the oracle because the
pipeline outcome must not depend on it. -/
structure NotifyEnv where
  slackWebhook : Option String
  delivery : NotifyDelivery
  deriving DecidableEq, Repr

/-- Observable events performed by a pipeline run. -/
inductive Event where
  | exec (cmd : String)
  | report (cmd : String)
  | fileWrite (path : String) (content : List (String × Yaml))
  | httpPost (url : String) (dryRunBody : Bool)
  | sleep (seconds : Nat)
  | rollbackCall
  | notifyCall (success : Bool) (msg : String)
  | webhookPost (url : String)
  | print (msg : String)

/-- Oracle for everything outside the pipeline process: exit status and
output of each shell command, environment variables, the catalog and
manifest files, the ArgoCD API, the health endpoint, and the clock. -/
structure World where
  cmdExit : String → Int
  cmdStdout : String → String
  cmdStderr : String → String
  githubSha : Option String
  registryUrl : Option String
  githubActor : Option String
  catalogExists : Bool
  catalogYaml : Except String Yaml
  manifestExists : Bool
  manifestYaml : List (String × Yaml)
  argocdApi : Option String
  argocdToken : Option String
  syncResponse : Option Int
  health : Nat → Option Nat
  nowIso : String
  durationStr : String

/-- DeploymentPipeline._load_config (pipeline.py 39-46): FileNotFoundError
when catalog-info.yaml is absent, a YAML parse error surfaces as is; no
retry in either case. -/
def load_config (w : World) : Except ConfigError Yaml :=
  if w.catalogExists then
    match w.catalogYaml with
    | .ok y => .ok y
    | .error m => .error (.configParseError m)
  else .error .configNotFound

/-- DeploymentPipeline._run_command (pipeline.py 48-64): in dry-run mode the
command is only reported and a synthetic success is returned; in real mode
the command runs, and with check set a nonzero exit yields (code, stderr)
via the caught CalledProcessError, otherwise (code, stdout). -/
def run_command (w : World) (dryRun : Bool) (cmd : String) (check : Bool) :
    (Int × String) × List Event :=
  if dryRun then ((0, "dry-run-output"), [.report cmd])
  else if check = true ∧ w.cmdExit cmd ≠ 0 then
    ((w.cmdExit cmd, w.cmdStderr cmd), [.exec cmd])
  else ((w.cmdExit cmd, w.cmdStdout cmd), [.exec cmd])

/-- The four test sub-steps of run_tests (pipeline.py 94-99), in order. -/
def testCommands : List (String × String) :=
  [("Unit tests", "pytest tests/unit -v --cov=. --cov-report=xml"),
   ("Integration tests", "pytest tests/integration -v"),
   ("Linting", "flake8 . --count --select=E9,F63,F7,F82 --show-source --statistics"),
   ("Type checking", "mypy . --ignore-missing-imports")]

/-- The fail-fast loop of run_tests: stop at the first sub-step whose
command exits nonzero. -/
def runTestsLoop (w : World) (dryRun : Bool) : List (String × String) → Bool × List Event
  | [] => (true, [])
  | (_, cmd) :: rest =>
    let r := run_command w dryRun cmd false
    if r.1.1 ≠ 0 then (false, r.2)
    else
      let t := runTestsLoop w dryRun rest
      (t.1, r.2 ++ t.2)

/-- DeploymentPipeline.run_tests (pipeline.py 90-112). -/
def run_tests (w : World) (dryRun : Bool) : Bool × List Event :=
  runTestsLoop w dryRun testCommands

/-- DeploymentPipeline.build_image (pipeline.py 66-88): derive the tag from
GITHUB_SHA (with subprocess.getoutput on git rev-parse as the eagerly
evaluated fallback), build, then tag and push ignoring their exit codes;
a nonzero build exit raises. -/
def build_image (w : World) (dryRun : Bool) (service_name : String) :
    Except String String × List Event :=
  let shaEvents : List Event := [.exec "git rev-parse HEAD"]
  let git_sha := (w.githubSha.getD (w.cmdStdout "git rev-parse HEAD")).take 8
  let image_tag := service_name ++ ":" ++ git_sha
  let b := run_command w dryRun ("docker build -t " ++ image_tag ++ " .") true
  if b.1.1 ≠ 0 then
    (.error ("Docker build failed: " ++ b.1.2), shaEvents ++ b.2)
  else
    let registry := w.registryUrl.getD "registry.company.com"
    let full_tag := registry ++ "/" ++ image_tag
    let t := run_command w dryRun ("docker tag " ++ image_tag ++ " " ++ full_tag) true
    let p := run_command w dryRun ("docker push " ++ full_tag) true
    (.ok full_tag, shaEvents ++ b.2 ++ t.2 ++ p.2)

/-- The trivy invocation of security_scan for a given image tag. -/
def trivyCmd (image_tag : String) : String :=
  "trivy image --severity HIGH,CRITICAL --exit-code 1 " ++ image_tag

/-- The log line printed when vulnerabilities are bypassed outside
production (pipeline.py 127). -/
def bypassMsg : String :=
  "Proceeding despite vulnerabilities in non-production environment"

/-- DeploymentPipeline.security_scan (pipeline.py 114-132): a nonzero trivy
exit blocks, except in the dev and staging environments where the stage
passes with a bypass log line. -/
def security_scan (w : World) (dryRun : Bool) (environment image_tag : String) :
    Bool × List Event :=
  let r := run_command w dryRun (trivyCmd image_tag) false
  if r.1.1 ≠ 0 then
    if environment = "dev" ∨ environment = "staging" then (true, r.2 ++ [.print bypassMsg])
    else (false, r.2)
  else (true, r.2)

/-- DeploymentPipeline.update_manifest (pipeline.py 134-170): raise when the
manifest file is missing; otherwise mutate the document, write it back (the
write is not guarded by the dry-run flag), then run git add/commit/push
through _run_command, ignoring their exit codes. -/
def update_manifest (w : World) (dryRun : Bool)
    (service_name environment image_tag : String) :
    Except String Unit × List Event :=
  let manifest_path := "deploy/" ++ environment ++ "/values.yaml"
  if w.manifestExists then
    let tag := extractTag image_tag
    match applyUpdate tag w.nowIso (w.githubActor.getD "unknown") w.manifestYaml with
    | none => (.error "manifest update raised", [])
    | some newValues =>
      let g1 := run_command w dryRun ("git add " ++ manifest_path) true
      let g2 := run_command w dryRun
        ("git commit -m \x27Deploy " ++ service_name ++ ":" ++ tag ++ " to "
          ++ environment ++ "\x27") true
      let g3 := run_command w dryRun "git push origin main" true
      (.ok (), Event.fileWrite manifest_path newValues :: (g1.2 ++ g2.2 ++ g3.2))
  else (.error ("Manifest not found: " ++ manifest_path), [])

/-- DeploymentPipeline.trigger_argocd_sync (pipeline.py 172-201): skip with
success when the ArgoCD endpoint or token is unset; otherwise POST the sync
request (even in dry-run mode, with dryRun only in the JSON body) and
succeed exactly on a 200 response; an exception fails the stage. -/
def trigger_argocd_sync (w : World) (dryRun : Bool)
    (service_name environment : String) : Bool × List Event :=
  match w.argocdApi, w.argocdToken with
  | some api, some _tok =>
    let app_name := service_name ++ "-" ++ environment
    let url := api ++ "/api/v1/applications/" ++ app_name ++ "/sync"
    match w.syncResponse with
    | none => (false, [.httpPost url dryRun])
    | some status => (decide (status = 200), [.httpPost url dryRun])
  | _, _ => (true, [])

/-- DeploymentPipeline.wait_for_deployment (pipeline.py 203-226): dry-run
returns success immediately; otherwise kubectl rollout status decides, and
on success health verification follows. -/
def wait_for_deployment (w : World) (dryRun : Bool)
    (service_name environment : String) : Bool × List Event :=
  if dryRun then (true, [])
  else
    let cmd := "kubectl rollout status deployment/" ++ service_name ++
      " -n " ++ environment ++ " --timeout=600s"
    let r := run_command w false cmd false
    if r.1.1 ≠ 0 then (false, r.2)
    else
      let h := verify_health false w.health
      (h.1, r.2 ++ h.2.2.map .sleep)

/-- DeploymentPipeline.rollback (pipeline.py 258-270): one kubectl rollout
undo, never retried; its exit code is reported as the stage outcome. -/
def rollback (w : World) (dryRun : Bool) (service_name environment : String) :
    Bool × List Event :=
  let r := run_command w dryRun
    ("kubectl rollout undo deployment/" ++ service_name ++ " -n " ++ environment) false
  (decide (r.1.1 = 0), .rollbackCall :: r.2)

/-- DeploymentPipeline.send_notification (pipeline.py 272-300): do nothing
when SLACK_WEBHOOK_URL is unset; otherwise POST the payload, ignoring the
response status and swallowing (but logging) any raised exception. -/
def send_notification (nenv : NotifyEnv) (success : Bool) (message : String) :
    List Event :=
  Event.notifyCall success message ::
    match nenv.slackWebhook with
    | none => []
    | some url =>
      match nenv.delivery with
      | .delivered _ => [.webhookPost url]
      | .raised e => [.webhookPost url, .print ("Failed to send notification: " ++ e)]

/-- DeploymentPipeline.deploy (pipeline.py 302-349): the stage sequence with
early exit, the rollback-on-verification-failure policy, and the top-level
exception handler that converts raises from build_image/update_manifest into
a generic failure notification. -/
def deploy (w : World) (nenv : NotifyEnv) (dryRun : Bool)
    (service_name environment : String) : Bool × List Event :=
  let t := run_tests w dryRun
  if ¬ t.1 then (false, t.2 ++ send_notification nenv false "Tests failed")
  else
    let b := build_image w dryRun service_name
    match b.1 with
    | .error e =>
      (false, t.2 ++ b.2 ++ send_notification nenv false ("Deployment error: " ++ e))
    | .ok image_tag =>
      let s := security_scan w dryRun environment image_tag
      if ¬ s.1 then
        (false, t.2 ++ b.2 ++ s.2 ++ send_notification nenv false "Security scan failed")
      else
        let m := update_manifest w dryRun service_name environment image_tag
        match m.1 with
        | .error e =>
          (false, t.2 ++ b.2 ++ s.2 ++ m.2 ++
            send_notification nenv false ("Deployment error: " ++ e))
        | .ok _ =>
          let y := trigger_argocd_sync w dryRun service_name environment
          if ¬ y.1 then
            (false, t.2 ++ b.2 ++ s.2 ++ m.2 ++ y.2 ++
              send_notification nenv false "Failed to trigger ArgoCD sync")
          else
            let d := wait_for_deployment w dryRun service_name environment
            if ¬ d.1 then
              let rb := rollback w dryRun service_name environment
              (false, t.2 ++ b.2 ++ s.2 ++ m.2 ++ y.2 ++ d.2 ++ rb.2 ++
                send_notification nenv false "Deployment failed, rolled back")
            else
              (true, t.2 ++ b.2 ++ s.2 ++ m.2 ++ y.2 ++ d.2 ++
                send_notification nenv true
                  ("Deployed " ++ image_tag ++ " in " ++ w.durationStr ++ "s"))

/-- main (pipeline.py 352-382): exit 1 when no service name is given;
constructing the pipeline loads the catalog, and a load failure propagates
uncaught (process exit 1, nothing else runs); otherwise the exit status is
0 or 1 according to the deploy outcome. -/
def mainRun (w : World) (nenv : NotifyEnv) (serviceArg : Option String)
    (environment : String) (dryRun : Bool) : Nat × List Event :=
  match serviceArg with
  | none => (1, [])
  | some service_name =>
    match load_config w with
    | .error _ => (1, [])
    | .ok _ =>
      let d := deploy w nenv dryRun service_name environment
      (if d.1 then 0 else 1, d.2)

/-- Events that are neither a Rollback invocation nor a notification call. -/
def Event.plain : Event → Bool
  | .rollbackCall => false
  | .notifyCall _ _ => false
  | _ => true

/-- Marker predicate for Rollback invocations. -/
def Event.isRollbackCall : Event → Bool
  | .rollbackCall => true
  | _ => false

/-- Extract the (success, message) argument of a notification call. -/
def notifyOf : Event → Option (Bool × String)
  | .notifyCall s m => some (s, m)
  | _ => none

theorem countP_eq_zero_of_plain (l : List Event) (h : ∀ e ∈ l, e.plain = true) :
    l.countP Event.isRollbackCall = 0 := by
  rw [List.countP_eq_zero]
  intro e he
  have hp := h e he
  cases e <;> simp_all [Event.plain, Event.isRollbackCall]

theorem filterMap_eq_nil_of_plain (l : List Event) (h : ∀ e ∈ l, e.plain = true) :
    l.filterMap notifyOf = [] := by
  rw [List.filterMap_eq_nil_iff]
  intro e he
  have hp := h e he
  cases e <;> simp_all [Event.plain, notifyOf]

theorem run_command_plain (w : World) (dr : Bool) (c : String) (ch : Bool) :
    ∀ e ∈ (run_command w dr c ch).2, e.plain = true := by
  intro e he
  unfold run_command at he
  split at he
  · simp at he; subst he; rfl
  · split at he <;> (simp at he; subst he; rfl)

theorem runTestsLoop_plain (w : World) (dr : Bool) :
    ∀ l, ∀ e ∈ (runTestsLoop w dr l).2, e.plain = true := by
  intro l
  induction l with
  | nil => intro e he; simp [runTestsLoop] at he
  | cons hd tl ih =>
    obtain ⟨n, c⟩ := hd
    intro e he
    simp only [runTestsLoop] at he
    split at he
    · exact run_command_plain w dr c false e he
    · rcases List.mem_append.1 he with h1 | h1
      · exact run_command_plain w dr c false e h1
      · exact ih e h1

theorem run_tests_plain (w : World) (dr : Bool) :
    ∀ e ∈ (run_tests w dr).2, e.plain = true :=
  runTestsLoop_plain w dr testCommands

theorem build_image_plain (w : World) (dr : Bool) (s : String) :
    ∀ e ∈ (build_image w dr s).2, e.plain = true := by
  intro e he
  simp only [build_image] at he
  split at he
  · rcases List.mem_append.1 he with h1 | h1
    · simp at h1; subst h1; rfl
    · exact run_command_plain _ _ _ _ e h1
  · rcases List.mem_append.1 he with h1 | h1
    · rcases List.mem_append.1 h1 with h2 | h2
      · rcases List.mem_append.1 h2 with h3 | h3
        · simp at h3; subst h3; rfl
        · exact run_command_plain _ _ _ _ e h3
      · exact run_command_plain _ _ _ _ e h2
    · exact run_command_plain _ _ _ _ e h1

theorem security_scan_plain (w : World) (dr : Bool) (env tag : String) :
    ∀ e ∈ (security_scan w dr env tag).2, e.plain = true := by
  intro e he
  simp only [security_scan] at he
  split at he
  · split at he
    · rcases List.mem_append.1 he with h1 | h1
      · exact run_command_plain _ _ _ _ e h1
      · simp at h1; subst h1; rfl
    · exact run_command_plain _ _ _ _ e he
  · exact run_command_plain _ _ _ _ e he

theorem update_manifest_plain (w : World) (dr : Bool) (s env tag : String) :
    ∀ e ∈ (update_manifest w dr s env tag).2, e.plain = true := by
  intro e he
  simp only [update_manifest] at he
  split at he
  · split at he
    · simp at he
    · rcases List.mem_cons.1 he with h1 | h1
      · subst h1; rfl
      · rcases List.mem_append.1 h1 with h2 | h2
        · rcases List.mem_append.1 h2 with h3 | h3
          · exact run_command_plain _ _ _ _ e h3
          · exact run_command_plain _ _ _ _ e h3
        · exact run_command_plain _ _ _ _ e h2
  · simp at he

theorem trigger_argocd_sync_plain (w : World) (dr : Bool) (s env : String) :
    ∀ e ∈ (trigger_argocd_sync w dr s env).2, e.plain = true := by
  intro e he
  simp only [trigger_argocd_sync] at he
  split at he
  · split at he <;> (simp at he; subst he; rfl)
  · simp at he

theorem wait_for_deployment_plain (w : World) (dr : Bool) (s env : String) :
    ∀ e ∈ (wait_for_deployment w dr s env).2, e.plain = true := by
  intro e he
  simp only [wait_for_deployment] at he
  split at he
  · simp at he
  · split at he
    · exact run_command_plain _ _ _ _ e he
    · rcases List.mem_append.1 he with h1 | h1
      · exact run_command_plain _ _ _ _ e h1
      · rcases List.mem_map.1 h1 with ⟨x, _, hx⟩
        subst hx; rfl

theorem rollback_rb_count (w : World) (dr : Bool) (s env : String) :
    (rollback w dr s env).2.countP Event.isRollbackCall = 1 := by
  simp only [rollback, List.countP_cons]
  rw [countP_eq_zero_of_plain _ (run_command_plain w dr _ false)]
  rfl

theorem rollback_filterMap_nil (w : World) (dr : Bool) (s env : String) :
    (rollback w dr s env).2.filterMap notifyOf = [] := by
  simp only [rollback, List.filterMap_cons]
  rw [filterMap_eq_nil_of_plain _ (run_command_plain w dr _ false)]
  rfl

theorem send_notification_filterMap (nenv : NotifyEnv) (ok : Bool) (msg : String) :
    (send_notification nenv ok msg).filterMap notifyOf = [(ok, msg)] := by
  simp only [send_notification, List.filterMap_cons]
  cases nenv.slackWebhook with
  | none => rfl
  | some url => cases nenv.delivery <;> rfl

theorem send_notification_rb_count (nenv : NotifyEnv) (ok : Bool) (msg : String) :
    (send_notification nenv ok msg).countP Event.isRollbackCall = 0 := by
  simp only [send_notification, List.countP_cons]
  cases nenv.slackWebhook with
  | none => rfl
  | some url => cases nenv.delivery <;> rfl

/-- C1: in every run whose Verifying phase (deployment wait / health
verification) fails after all earlier stages succeeded, Rollback is invoked
exactly once before the run reaches the failed outcome, the run fails
regardless of whether the rollback command itself succeeds or fails (the
world places no constraint on its exit code), and the single notification
reports the verification failure (Deployment failed, rolled back) — a
rollback failure does not change the reported cause. -/
theorem verify_failure_rollback (w : World) (nenv : NotifyEnv)
    (svc env image_tag : String)
    (ht : (run_tests w false).1 = true)
    (hb : (build_image w false svc).1 = Except.ok image_tag)
    (hs : (security_scan w false env image_tag).1 = true)
    (hm : (update_manifest w false svc env image_tag).1 = Except.ok ())
    (hy : (trigger_argocd_sync w false svc env).1 = true)
    (hd : (wait_for_deployment w false svc env).1 = false) :
    (deploy w nenv false svc env).1 = false ∧
    (deploy w nenv false svc env).2.countP Event.isRollbackCall = 1 ∧
    (deploy w nenv false svc env).2.filterMap notifyOf =
      [(false, "Deployment failed, rolled back")] ∧
    ∃ pre, (deploy w nenv false svc env).2 =
      pre ++ (rollback w false svc env).2 ++
        send_notification nenv false "Deployment failed, rolled back" := by
  have hdep : deploy w nenv false svc env =
      (false, (run_tests w false).2 ++ (build_image w false svc).2 ++
        (security_scan w false env image_tag).2 ++
        (update_manifest w false svc env image_tag).2 ++
        (trigger_argocd_sync w false svc env).2 ++
        (wait_for_deployment w false svc env).2 ++ (rollback w false svc env).2 ++
        send_notification nenv false "Deployment failed, rolled back") := by
    simp only [deploy, ht, hb, hs, hm, hy, hd]
    simp
  refine ⟨by rw [hdep], ?_, ?_, ?_⟩
  · rw [hdep]
    simp only [List.countP_append]
    rw [countP_eq_zero_of_plain _ (run_tests_plain w false),
      countP_eq_zero_of_plain _ (build_image_plain w false svc),
      countP_eq_zero_of_plain _ (security_scan_plain w false env image_tag),
      countP_eq_zero_of_plain _ (update_manifest_plain w false svc env image_tag),
      countP_eq_zero_of_plain _ (trigger_argocd_sync_plain w false svc env),
      countP_eq_zero_of_plain _ (wait_for_deployment_plain w false svc env),
      rollback_rb_count, send_notification_rb_count]
  · rw [hdep]
    simp only [List.filterMap_append]
    rw [filterMap_eq_nil_of_plain _ (run_tests_plain w false),
      filterMap_eq_nil_of_plain _ (build_image_plain w false svc),
      filterMap_eq_nil_of_plain _ (security_scan_plain w false env image_tag),
      filterMap_eq_nil_of_plain _ (update_manifest_plain w false svc env image_tag),
      filterMap_eq_nil_of_plain _ (trigger_argocd_sync_plain w false svc env),
      filterMap_eq_nil_of_plain _ (wait_for_deployment_plain w false svc env),
      rollback_filterMap_nil, send_notification_filterMap]
    simp
  · refine ⟨(run_tests w false).2 ++ (build_image w false svc).2 ++
      (security_scan w false env image_tag).2 ++
      (update_manifest w false svc env image_tag).2 ++
      (trigger_argocd_sync w false svc env).2 ++
      (wait_for_deployment w false svc env).2, ?_⟩
    rw [hdep]

/-- A concrete world where every stage succeeds except the deployment
rollout wait (kubectl rollout status exits 1), so the Verifying phase
fails; the rollback command itself succeeds (exit 0). -/
def w0 : World where
  cmdExit := fun c =>
    if c = "kubectl rollout status deployment/user-api -n staging --timeout=600s" then 1 else 0
  cmdStdout := fun _ => ""
  cmdStderr := fun _ => ""
  githubSha := some "abc12345"
  registryUrl := none
  githubActor := some "alice"
  catalogExists := true
  catalogYaml := .ok (Yaml.map [])
  manifestExists := true
  manifestYaml := doc0
  argocdApi := none
  argocdToken := none
  syncResponse := none
  health := fun _ => none
  nowIso := "t1"
  durationStr := "42"

/-- A notification environment with no webhook configured. -/
def nenv0 : NotifyEnv where
  slackWebhook := none
  delivery := .delivered 200

/-- Witness for C1: on the concrete world w0 the deploy run fails, invokes
Rollback exactly once and reports the verification failure. -/
theorem verify_failure_rollback_witness :
    (deploy w0 nenv0 false "user-api" "staging").1 = false ∧
    (deploy w0 nenv0 false "user-api" "staging").2.countP Event.isRollbackCall = 1 ∧
    (deploy w0 nenv0 false "user-api" "staging").2.filterMap notifyOf =
      [(false, "Deployment failed, rolled back")] :=
  ⟨(verify_failure_rollback w0 nenv0 "user-api" "staging"
      "registry.company.com/user-api:abc12345" rfl rfl rfl rfl rfl rfl).1,
   (verify_failure_rollback w0 nenv0 "user-api" "staging"
      "registry.company.com/user-api:abc12345" rfl rfl rfl rfl rfl rfl).2.1,
   (verify_failure_rollback w0 nenv0 "user-api" "staging"
      "registry.company.com/user-api:abc12345" rfl rfl rfl rfl rfl rfl).2.2.1⟩

/-- C3: a blocking (HIGH/CRITICAL) finding, i.e. a nonzero trivy exit, fails
the stage in production but passes it in staging and dev with a bypass log
line; with no blocking finding the stage passes in every environment. -/
theorem security_scan_policy (w : World) (image_tag : String) :
    (w.cmdExit (trivyCmd image_tag) ≠ 0 →
      (security_scan w false "production" image_tag).1 = false ∧
      (security_scan w false "staging" image_tag).1 = true ∧
      (security_scan w false "dev" image_tag).1 = true ∧
      Event.print bypassMsg ∈ (security_scan w false "staging" image_tag).2 ∧
      Event.print bypassMsg ∈ (security_scan w false "dev" image_tag).2) ∧
    (w.cmdExit (trivyCmd image_tag) = 0 →
      ∀ environment, (security_scan w false environment image_tag).1 = true) := by
  constructor
  · intro h
    refine ⟨?_, ?_, ?_, ?_, ?_⟩ <;> simp [security_scan, run_command, h]
  · intro h environment
    simp [security_scan, run_command, h]

/-- A world whose commands all fail (in particular the trivy scan). -/
def w3 : World := { w0 with cmdExit := fun _ => 1 }

/-- Witness for C3: a failing scan blocks production but not staging, and a
clean scan passes production. -/
theorem security_scan_policy_witness :
    (security_scan w3 false "production" "user-api:abc12345").1 = false ∧
    (security_scan w3 false "staging" "user-api:abc12345").1 = true ∧
    (security_scan w0 false "production" "user-api:abc12345").1 = true :=
  ⟨((security_scan_policy w3 "user-api:abc12345").1 (by decide)).1,
   ((security_scan_policy w3 "user-api:abc12345").1 (by decide)).2.1,
   (security_scan_policy w0 "user-api:abc12345").2 (by decide) "production"⟩

/-- C8: the SyncTrigger stage succeeds without issuing any request when the
ArgoCD endpoint or token is absent; otherwise it POSTs a sync request for
the application identifier service-environment, and any non-2xx response
fails the stage. -/
theorem sync_trigger_policy (w : World) (dr : Bool) (svc env : String) :
    ((w.argocdApi = none ∨ w.argocdToken = none) →
      trigger_argocd_sync w dr svc env = (true, [])) ∧
    (∀ api tok status, w.argocdApi = some api → w.argocdToken = some tok →
      w.syncResponse = some status → ¬(200 ≤ status ∧ status < 300) →
      (trigger_argocd_sync w dr svc env).1 = false ∧
      (trigger_argocd_sync w dr svc env).2 =
        [.httpPost (api ++ "/api/v1/applications/" ++ (svc ++ "-" ++ env) ++ "/sync") dr]) := by
  constructor
  · intro h
    rcases ha : w.argocdApi with _ | api <;> rcases hb : w.argocdToken with _ | tok <;>
      simp_all [trigger_argocd_sync]
  · intro api tok status ha hb hsr hn
    have h200 : status ≠ 200 := by omega
    simp [trigger_argocd_sync, ha, hb, hsr, h200]

/-- A world with ArgoCD configured whose sync endpoint answers 500. -/
def w8 : World := { w0 with
  argocdApi := some "https://argocd.company.com", argocdToken := some "tok",
  syncResponse := some 500 }

/-- Witness for C8: unset credentials skip with success; a 500 response
fails the stage. -/
theorem sync_trigger_policy_witness :
    trigger_argocd_sync w0 false "user-api" "staging" = (true, []) ∧
    (trigger_argocd_sync w8 false "user-api" "staging").1 = false :=
  ⟨(sync_trigger_policy w0 false "user-api" "staging").1 (Or.inl rfl),
   ((sync_trigger_policy w8 false "user-api" "staging").2
     "https://argocd.company.com" "tok" 500 rfl rfl rfl (by omega)).1⟩

/-- C6: a missing catalog file surfaces as ConfigNotFound and a malformed
one as ConfigParseError; in both cases the run aborts before any stage (no
events at all, hence no test/build command and no notification attempt) and
the process exit status is nonzero. -/
theorem config_error_aborts (w : World) (nenv : NotifyEnv) (svc env : String)
    (dr : Bool) :
    (w.catalogExists = false →
      load_config w = .error .configNotFound ∧
      mainRun w nenv (some svc) env dr = (1, [])) ∧
    (∀ m, w.catalogExists = true → w.catalogYaml = .error m →
      load_config w = .error (.configParseError m) ∧
      mainRun w nenv (some svc) env dr = (1, [])) := by
  constructor
  · intro h
    have hl : load_config w = .error .configNotFound := by simp [load_config, h]
    exact ⟨hl, by simp [mainRun, hl]⟩
  · intro m h1 h2
    have hl : load_config w = .error (.configParseError m) := by
      simp [load_config, h1, h2]
    exact ⟨hl, by simp [mainRun, hl]⟩

/-- A world with no catalog file. -/
def w6 : World := { w0 with catalogExists := false }

/-- A world whose catalog file does not parse. -/
def w6b : World := { w0 with catalogYaml := .error "bad yaml" }

/-- Witness for C6: with a missing catalog the run exits 1 having performed
no event, and a malformed catalog classifies as a parse error. -/
theorem config_error_aborts_witness :
    mainRun w6 nenv0 (some "user-api") "staging" false = (1, []) ∧
    load_config w6b = .error (.configParseError "bad yaml") :=
  ⟨((config_error_aborts w6 nenv0 "user-api" "staging" false).1 rfl).2,
   ((config_error_aborts w6b nenv0 "user-api" "staging" false).2 "bad yaml" rfl rfl).1⟩

theorem deploy_fst_nenv (w : World) (n1 n2 : NotifyEnv) (dr : Bool) (svc env : String) :
    (deploy w n1 dr svc env).1 = (deploy w n2 dr svc env).1 := by
  cases ht : (run_tests w dr).1
  · simp [deploy, ht]
  · cases hb : (build_image w dr svc).1 with
    | error e => simp [deploy, ht, hb]
    | ok tag =>
      cases hs : (security_scan w dr env tag).1
      · simp [deploy, ht, hb, hs]
      · cases hm : (update_manifest w dr svc env tag).1 with
        | error e => simp [deploy, ht, hb, hs, hm]
        | ok u =>
          cases hy : (trigger_argocd_sync w dr svc env).1
          · simp [deploy, ht, hb, hs, hm, hy]
          · cases hd : (wait_for_deployment w dr svc env).1 <;>
              simp [deploy, ht, hb, hs, hm, hy, hd]

theorem mainRun_fst_nenv (w : World) (n1 n2 : NotifyEnv) (sv : Option String)
    (env : String) (dr : Bool) :
    (mainRun w n1 sv env dr).1 = (mainRun w n2 sv env dr).1 := by
  cases sv with
  | none => rfl
  | some svc =>
    simp only [mainRun]
    cases hl : load_config w with
    | error e => simp [hl]
    | ok y => simp [hl, deploy_fst_nenv w n1 n2 dr svc env]

/-- C9: notification delivery is best-effort.  The deploy outcome and the
process exit status are identical for every notification configuration and
delivery behavior (webhook unset, delivered with any status, or raising);
a raised delivery exception is swallowed and logged inside the notify
operation; and every notify call still records its outcome message. -/
theorem notification_best_effort :
    (∀ (w : World) (n1 n2 : NotifyEnv) (dr : Bool) (svc env : String),
      (deploy w n1 dr svc env).1 = (deploy w n2 dr svc env).1) ∧
    (∀ (w : World) (n1 n2 : NotifyEnv) (sv : Option String) (env : String) (dr : Bool),
      (mainRun w n1 sv env dr).1 = (mainRun w n2 sv env dr).1) ∧
    (∀ (url e : String) (ok : Bool) (msg : String),
      send_notification ⟨some url, .raised e⟩ ok msg =
        [.notifyCall ok msg, .webhookPost url,
         .print ("Failed to send notification: " ++ e)]) ∧
    (∀ (nenv : NotifyEnv) (ok : Bool) (msg : String),
      (send_notification nenv ok msg).filterMap notifyOf = [(ok, msg)]) :=
  ⟨deploy_fst_nenv, mainRun_fst_nenv, fun _ _ _ _ => rfl, send_notification_filterMap⟩

/-- A world where only the git push fails and everything else (including
the health endpoint, which answers 200) succeeds. -/
def w5 : World := { w0 with
  cmdExit := fun c => if c = "git push origin main" then 1 else 0,
  health := fun _ => some 200 }

/-- C5 counterexample: with a failing git push the ManifestUpdate stage
still reports success (the git exit codes are ignored), and the whole
pipeline run even reports overall success — the push failure is not a
stage failure. -/
theorem push_failure_ignored_cex :
    w5.cmdExit "git push origin main" = 1 ∧
    (update_manifest w5 false "user-api" "staging" "user-api:abc12345").1 =
      Except.ok () ∧
    (deploy w5 nenv0 false "user-api" "staging").1 = true :=
  ⟨rfl, rfl, rfl⟩

/-- C5 amended: in the ManifestUpdate stage a missing manifest file is fatal
(Manifest not found); a commit/push failure neither undoes the
already-performed local file mutation nor causes the stage to fail — the
git exit codes are ignored and the stage reports success whenever the
manifest exists and the document update applies, whatever the command
results. -/
theorem manifest_stage_error_handling (w : World) (svc env tag : String)
    (dr : Bool) (nv : List (String × Yaml))
    (hm : w.manifestExists = true)
    (ha : applyUpdate (extractTag tag) w.nowIso (w.githubActor.getD "unknown")
      w.manifestYaml = some nv) :
    (update_manifest w dr svc env tag).1 = Except.ok () ∧
    Event.fileWrite ("deploy/" ++ env ++ "/values.yaml") nv ∈
      (update_manifest w dr svc env tag).2 ∧
    (∀ w2 : World, w2.manifestExists = false →
      (update_manifest w2 dr svc env tag).1 =
        Except.error ("Manifest not found: " ++ ("deploy/" ++ env ++ "/values.yaml"))) := by
  refine ⟨?_, ?_, ?_⟩
  · simp [update_manifest, hm, ha]
  · simp [update_manifest, hm, ha]
  · intro w2 h2
    simp [update_manifest, h2]

/-- Witness for the amended C5: on w5 the stage succeeds and the mutated
document is written, while the push command fails. -/
theorem manifest_stage_error_handling_witness :
    (update_manifest w5 false "user-api" "staging" "user-api:abc12345").1 =
      Except.ok () ∧
    Event.fileWrite "deploy/staging/values.yaml" doc1 ∈
      (update_manifest w5 false "user-api" "staging" "user-api:abc12345").2 :=
  ⟨(manifest_stage_error_handling w5 "user-api" "staging" "user-api:abc12345"
      false doc1 rfl rfl).1,
   (manifest_stage_error_handling w5 "user-api" "staging" "user-api:abc12345"
      false doc1 rfl rfl).2.1⟩

/-- A world with ArgoCD credentials configured, for the dry-run claim. -/
def w4 : World := { w0 with
  argocdApi := some "https://argocd.company.com", argocdToken := some "tok",
  syncResponse := some 200 }

/-- C4 fails on the code: in dry-run mode the ManifestUpdate stage still
writes the mutated manifest document to disk (the file write is not guarded
by the dry-run flag — only commands routed through _run_command are merely
reported), and the SyncTrigger stage still issues a real HTTP POST to the
sync controller, with dryRun carried only inside the JSON body. -/
theorem dry_run_still_mutates :
    (update_manifest w4 true "user-api" "staging" "user-api:abc12345").2 =
      Event.fileWrite "deploy/staging/values.yaml" doc1 ::
        [.report "git add deploy/staging/values.yaml",
         .report "git commit -m \x27Deploy user-api:abc12345 to staging\x27",
         .report "git push origin main"] ∧
    (trigger_argocd_sync w4 true "user-api" "staging").2 =
      [.httpPost "https://argocd.company.com/api/v1/applications/user-api-staging/sync" true] :=
  ⟨rfl, rfl⟩

end Pipeline
